import Mathlib

/-!
# CS736-Memory-Tiering: scanner policy and server handlers

A shallow embedding of `src/src/Scanner.cpp`, `src/src/Server.cpp` and the
allocation / migration helpers of `src/include/Utils.hpp`.

Conventions of the embedding.

* `size_t` values are natural numbers; where the source computes with them
  (`+`, `*`) the result is reduced modulo `2 ^ 64`.
* `std::chrono::steady_clock` time points are integer tick counts
  (nanoseconds, the period of `steady_clock::duration` in libstdc++ and
  libc++); `std::chrono::seconds` values are integers.
* Every read of the clock and every system call is an explicit argument of the
  function that performs it, so each function is a pure, total function of the
  program state and of what the operating system answered.
* A function that can call `exit(EXIT_FAILURE)` returns an `Outcome`.
-/

namespace MemoryTiering

/-! ## Data model -/

/-- The enumeration `PageLayer` of `Common.hpp` (the header is not among the
sources; its three enumerators are the ones `Server.cpp` and `Scanner.cpp`
switch over). -/
inductive PageLayer where
  | NUMA_LOCAL
  | NUMA_REMOTE
  | PMEM
  deriving DecidableEq, Repr

/-- The record `PageMetadata` with the fields `Scanner.cpp` and `Server.cpp`
read: `page_id`, `page_address`, `page_layer`, `last_access_time` and
`access_count`. (The copy of `PageTable.hpp` among the sources declares the
layer as an `int` and has no `page_id`; the two `.cpp` files use the layer as a
`PageLayer` and read `page.page_id`, and they are followed here.) -/
structure PageMetadata where
  page_id : Nat
  page_address : Nat
  page_layer : PageLayer
  last_access_time : Int
  access_count : Nat
  deriving DecidableEq, Repr

/-- The message `MemMoveReq(page_id, layer_id)` sent by the scanner to the
server. -/
structure MemMoveReq where
  page_id : Nat
  layer_id : PageLayer
  deriving DecidableEq, Repr

/-- Width of `size_t`. -/
def SIZE_MOD : Nat := 2 ^ 64

/-- Number of `steady_clock` ticks in one second. -/
def TICKS_PER_SECOND : Int := 1000000000

/-! ## Scanner (`src/src/Scanner.cpp`) -/

/-- `Scanner::classifyHotPage`: `page.access_count >= min_access_count`. -/
def classifyHotPage (page : PageMetadata) (min_access_count : Nat) : Bool :=
  decide (page.access_count ≥ min_access_count)

/-- `Scanner::classifyColdPage`; `current_time` is the value returned by
`steady_clock::now()`. The difference of the two time points is converted to
whole seconds by `duration_cast`, which truncates toward zero, and the
truncated value is compared with the threshold. -/
def classifyColdPage (page : PageMetadata) (current_time : Int) (time_threshold : Int) : Bool :=
  let time_since_last_access := Int.tdiv (current_time - page.last_access_time) TICKS_PER_SECOND
  decide (time_since_last_access ≥ time_threshold)

/-- The body of the loop of `Scanner::runClassifier` applied to the snapshot
`page` returned by `scanNext()`: the result is the list of requests handed to
`move_page_buffer.push` during the step (the retry loop around `push` pushes
the same message until the buffer accepts it). `current_time` is the clock
value read by the one call of `classifyColdPage` the step makes. -/
def classifierStep (page : PageMetadata) (current_time : Int)
    (min_access_count : Nat) (time_threshold : Int) : List MemMoveReq :=
  match page.page_layer with
  | PageLayer.NUMA_LOCAL =>
    if classifyColdPage page current_time time_threshold then
      [{ page_id := page.page_id, layer_id := PageLayer.NUMA_REMOTE }]
    else []
  | PageLayer.NUMA_REMOTE =>
    if classifyColdPage page current_time time_threshold then
      [{ page_id := page.page_id, layer_id := PageLayer.PMEM }]
    else if classifyHotPage page min_access_count then
      [{ page_id := page.page_id, layer_id := PageLayer.NUMA_LOCAL }]
    else []
  | PageLayer.PMEM =>
    if classifyHotPage page min_access_count then
      [{ page_id := page.page_id, layer_id := PageLayer.NUMA_REMOTE }]
    else []

/-! ## Page table (`PageTable.cpp` is not among the sources) -/

/-- Modelled from the spec: the entry-wise update underlying the page-table
writers of the missing `PageTable.cpp`. The entry at `index` is replaced by its
image under `f`; every other entry, and a table that has no entry `index`, is
left as it is. -/
def updateEntry (f : PageMetadata → PageMetadata) : List PageMetadata → Nat → List PageMetadata
  | [], _ => []
  | p :: ps, 0 => f p :: ps
  | p :: ps, index + 1 => p :: updateEntry f ps index

/-- Modelled from the spec: `PageTable::getPage` of the missing
`PageTable.cpp`, "`get(pid) → snapshot` returns a copy of `PageMetadata`". The
table is indexed by the page ids `[0, N)`; an index outside the table has no
entry. -/
def getPage (table : List PageMetadata) (index : Nat) : Option PageMetadata :=
  table[index]?

/-- Modelled from the spec: `PageTable::updateAccess` of the missing
`PageTable.cpp`, "`update_access(pid)` increments `access_count`, sets
`last_access_time` to now". -/
def updateAccess (table : List PageMetadata) (index : Nat) (now : Int) : List PageMetadata :=
  updateEntry (fun p => { p with access_count := (p.access_count + 1) % SIZE_MOD,
                                 last_access_time := now }) table index

/-- Modelled from the spec: `PageTable::updatePageLayer` of the missing
`PageTable.cpp` (declared in `PageTable.hpp`), "`update_tier(pid, new_tier)`
sets `tier`". -/
def updatePageLayer (table : List PageMetadata) (index : Nat) (new_layer : PageLayer) :
    List PageMetadata :=
  updateEntry (fun p => { p with page_layer := new_layer }) table index

/-- The number of pages of the table whose tier is `layer`. -/
def tierCount (layer : PageLayer) (table : List PageMetadata) : Nat :=
  table.countP (fun p => decide (p.page_layer = layer))

/-! ## Server (`src/src/Server.cpp`, `src/include/Utils.hpp`) -/

/-- Modelled from the spec: the counters of the missing `Metrics` singleton
that `Server.cpp` increments: accesses per tier and migrations per
transition. -/
structure Metrics where
  local_access : Nat
  remote_access : Nat
  pmem_access : Nat
  local_to_remote : Nat
  remote_to_local : Nat
  pmem_to_remote : Nat
  remote_to_pmem : Nat
  deriving DecidableEq, Repr

/-- The operation of a client message. -/
inductive OperationType where
  | READ
  | WRITE
  deriving DecidableEq, Repr

/-- The message `ClientMessage(client_id, offset, op_type)`. -/
structure ClientMessage where
  client_id : Nat
  offset : Nat
  op_type : OperationType
  deriving DecidableEq, Repr

/-- What one `move_pages` system call answered: its return value and the
status it stored for the single page. -/
structure MoveResult where
  ret : Int
  status : Int
  deriving DecidableEq, Repr

/-- The OS page-migration primitive succeeded for the page: the call returned
zero and reported no negative status. -/
def MoveResult.succeeded (r : MoveResult) : Prop :=
  r.ret = 0 ∧ 0 ≤ r.status

/-- The members of `Server` the handlers use, the metrics singleton, and the
trace of `move_pages` calls issued so far (page address, target node). -/
structure ServerState where
  base_page_id_ : List Nat
  page_table_ : List PageMetadata
  metrics : Metrics
  move_pages_calls : List (Nat × Nat)
  deriving DecidableEq, Repr

/-- How a call ends: it returns to its caller, the process is terminated by
`exit(EXIT_FAILURE)`, or an invalid access was made, with an index outside a
container or through a null pointer (`fault`). The state carried is the state
at that moment. -/
inductive Outcome (σ : Type) where
  | returned (s : σ)
  | exited (s : σ)
  | fault (s : σ)
  deriving DecidableEq, Repr

/-- The state an outcome carries. -/
def Outcome.state {σ : Type} : Outcome σ → σ
  | Outcome.returned s => s
  | Outcome.exited s => s
  | Outcome.fault s => s

/-- The loop of the constructor `Server::Server` over `client_addr_space`:
the pair of `base_page_id_` and the final `current_base`, the size the page
table is created with. -/
def computeBases (client_addr_space : List Nat) : List Nat × Nat :=
  client_addr_space.foldl
    (fun acc size => (acc.1 ++ [acc.2], (acc.2 + size) % SIZE_MOD)) ([], 0)

/-- The page id of `Server::handleClientMessage`:
`base_page_id_[msg.client_id] + msg.offset`. -/
def resolvePageId (base_page_id_ : List Nat) (client_id offset : Nat) : Option Nat :=
  match base_page_id_[client_id]? with
  | none => none
  | some base => some ((base + offset) % SIZE_MOD)

/-- `Server::handleClientMessage`; `now` is the clock value `updateAccess`
stores. The timed touch of the page content (`access_page`) changes none of
the modelled state. -/
def handleClientMessage (s : ServerState) (msg : ClientMessage) (now : Int) :
    Outcome ServerState :=
  match resolvePageId s.base_page_id_ msg.client_id msg.offset with
  | none => Outcome.fault s
  | some actual_id =>
    match getPage s.page_table_ actual_id with
    | none => Outcome.fault s
    | some page_meta =>
      let table := updateAccess s.page_table_ actual_id now
      let m := s.metrics
      let metrics :=
        match page_meta.page_layer with
        | PageLayer.NUMA_LOCAL => { m with local_access := m.local_access + 1 }
        | PageLayer.NUMA_REMOTE => { m with remote_access := m.remote_access + 1 }
        | PageLayer.PMEM => { m with pmem_access := m.pmem_access + 1 }
      Outcome.returned { s with page_table_ := table, metrics := metrics }

/-- The target node computed by `migrate_page`. -/
def targetNode (target_tier : PageLayer) : Nat :=
  if target_tier = PageLayer.NUMA_LOCAL then 0
  else if target_tier = PageLayer.NUMA_REMOTE then 1 else 2

/-- `move_page_to_node`: true when the function returns, false when it calls
`exit(EXIT_FAILURE)` because `move_pages` returned non-zero. The status the
call stored is not read. -/
def move_page_to_node (os : MoveResult) : Bool :=
  if os.ret ≠ 0 then false else true

/-- `Server::handleMemoryMoveRequest`; `os` is the answer of the `move_pages`
call the request leads to, if it leads to one. -/
def handleMemoryMoveRequest (s : ServerState) (req : MemMoveReq) (os : MoveResult) :
    Outcome ServerState :=
  match getPage s.page_table_ req.page_id with
  | none => Outcome.fault s
  | some page_meta =>
    let target_node := req.layer_id
    let current_node := page_meta.page_layer
    if current_node = target_node then Outcome.returned s
    else
      let m := s.metrics
      let metrics :=
        if current_node = PageLayer.NUMA_LOCAL ∧ target_node = PageLayer.NUMA_REMOTE then
          { m with local_to_remote := m.local_to_remote + 1 }
        else if current_node = PageLayer.NUMA_REMOTE ∧ target_node = PageLayer.NUMA_LOCAL then
          { m with remote_to_local := m.remote_to_local + 1 }
        else if current_node = PageLayer.PMEM ∧ target_node = PageLayer.NUMA_REMOTE then
          { m with pmem_to_remote := m.pmem_to_remote + 1 }
        else if current_node = PageLayer.NUMA_REMOTE ∧ target_node = PageLayer.PMEM then
          { m with remote_to_pmem := m.remote_to_pmem + 1 }
        else m
      let s1 : ServerState :=
        { s with metrics := metrics,
                 move_pages_calls :=
                   s.move_pages_calls ++ [(page_meta.page_address, targetNode target_node)] }
      if move_page_to_node os then
        Outcome.returned
          { s1 with page_table_ := updatePageLayer s1.page_table_ req.page_id req.layer_id }
      else Outcome.exited s1

/-- One call made by the manager thread, together with what the environment
answers during the call. -/
inductive ServerCall where
  | clientMessage (msg : ClientMessage) (now : Int)
  | memoryMove (req : MemMoveReq) (os : MoveResult)
  deriving DecidableEq, Repr

/-- The handler a call runs. -/
def serverCall (s : ServerState) : ServerCall → Outcome ServerState
  | ServerCall.clientMessage msg now => handleClientMessage s msg now
  | ServerCall.memoryMove req os => handleMemoryMoveRequest s req os

/-- A sequence of handler calls, as `Server::runManagerThread` issues them; the
sequence ends at the first call that does not return. -/
def runCalls : ServerState → List ServerCall → Outcome ServerState
  | s, [] => Outcome.returned s
  | s, c :: cs =>
    match serverCall s c with
    | Outcome.returned s1 => runCalls s1 cs
    | Outcome.exited s1 => Outcome.exited s1
    | Outcome.fault s1 => Outcome.fault s1

/-- The tier of page `pid` in a server state. -/
def tierOf (s : ServerState) (pid : Nat) : Option PageLayer :=
  (getPage s.page_table_ pid).map (fun p => p.page_layer)

/-- The backing address of page `pid` in a server state. -/
def addressOf (s : ServerState) (pid : Nat) : Option Nat :=
  (getPage s.page_table_ pid).map (fun p => p.page_address)

/-! ## Tier allocation (`src/include/Utils.hpp`, `Server::allocateMemory`) -/

/-- The macro `PAGE_SIZE` of `Utils.hpp`. -/
def PAGE_SIZE : Nat := 4096

/-- The pointer `MAP_FAILED`, `(void *) -1`. -/
def MAP_FAILED : Nat := SIZE_MOD - 1

/-- The null pointer. -/
def NULL : Nat := 0

/-- The memory-management calls the allocation helpers issue, with the
arguments that matter: the length of a mapping and whether it is populated, the
address, length and node mask of a binding, the range unmapped, the range
zeroed by `memset`. -/
inductive SysCall where
  | mmap (length : Nat) (populate : Bool)
  | mbind (addr : Nat) (len : Nat) (nodemask : Nat)
  | munmap (addr : Nat) (length : Nat)
  | memset (addr : Nat) (length : Nat)
  deriving DecidableEq, Repr

/-- `allocate_pages`; `mmap_ret` is the pointer `mmap` returned. The result is
the outcome (the pointer returned, or process exit when the mapping failed)
and the calls issued. -/
def allocate_pages (size number : Nat) (mmap_ret : Nat) : Outcome Nat × List SysCall :=
  let calls := [SysCall.mmap ((size * number) % SIZE_MOD) true]
  if mmap_ret = MAP_FAILED then (Outcome.exited mmap_ret, calls)
  else (Outcome.returned mmap_ret, calls)

/-- `allocate_and_bind_to_numa`; `mmap_ret` is the pointer `mmap` returned and
`mbind_ret` the value of the `mbind` system call. The result is the pointer
returned (`NULL` when the mapping or the binding failed) and the calls
issued. -/
def allocate_and_bind_to_numa (size number numa_node : Nat) (mmap_ret : Nat) (mbind_ret : Int) :
    Nat × List SysCall :=
  let length := (size * number) % SIZE_MOD
  if mmap_ret = MAP_FAILED then (NULL, [SysCall.mmap length false])
  else
    let nodemask := (2 ^ numa_node) % SIZE_MOD
    if mbind_ret ≠ 0 then
      (NULL, [SysCall.mmap length false, SysCall.mbind mmap_ret size nodemask,
              SysCall.munmap mmap_ret length])
    else
      (mmap_ret, [SysCall.mmap length false, SysCall.mbind mmap_ret size nodemask,
                  SysCall.memset mmap_ret length])

/-- The structure `ServerMemoryConfig`: the tier capacities in pages. -/
structure ServerMemoryConfig where
  local_numa_size : Nat
  remote_numa_size : Nat
  pmem_size : Nat
  deriving DecidableEq, Repr

/-- The region members of `Server` and the memory-management calls issued so
far. -/
structure ServerMemory where
  local_page_count_ : Nat
  remote_page_count_ : Nat
  pmem_page_count_ : Nat
  local_base_ : Nat
  remote_base_ : Nat
  pmem_base_ : Nat
  syscalls : List SysCall
  deriving DecidableEq, Repr

/-- What the operating system answers to the calls of `allocateMemory`. -/
structure AllocAnswers where
  local_mmap : Nat
  remote_mmap : Nat
  remote_mbind : Int
  pmem_mmap : Nat
  pmem_mbind : Int
  deriving DecidableEq, Repr

/-- `Server::allocateMemory`. -/
def allocateMemory (m : ServerMemory) (config : ServerMemoryConfig) (os : AllocAnswers) :
    Outcome ServerMemory :=
  let m1 := { m with local_page_count_ := config.local_numa_size,
                     remote_page_count_ := config.remote_numa_size,
                     pmem_page_count_ := config.pmem_size }
  match allocate_pages PAGE_SIZE m1.local_page_count_ os.local_mmap with
  | (Outcome.returned mem, calls) =>
    let m2 := { m1 with local_base_ := mem, syscalls := m1.syscalls ++ calls }
    let remote := allocate_and_bind_to_numa PAGE_SIZE m2.remote_page_count_ 1
      os.remote_mmap os.remote_mbind
    let m3 := { m2 with remote_base_ := remote.1, syscalls := m2.syscalls ++ remote.2 }
    let pmem := allocate_and_bind_to_numa PAGE_SIZE m3.pmem_page_count_ 2
      os.pmem_mmap os.pmem_mbind
    Outcome.returned { m3 with pmem_base_ := pmem.1, syscalls := m3.syscalls ++ pmem.2 }
  | (Outcome.exited _, calls) => Outcome.exited { m1 with syscalls := m1.syscalls ++ calls }
  | (Outcome.fault _, calls) => Outcome.fault { m1 with syscalls := m1.syscalls ++ calls }

/-- One of the three fill loops of `Server::generateRandomContent`: it stores
a byte at `base[i]` for every `i` below `size`. `filled` lists the ranges (first
address, length) written before the loop. A loop of length zero stores
nothing; the first store of a loop through a null base is an invalid access
that kills the process, so nothing after it runs. -/
def fillRegion (base size : Nat) (filled : List (Nat × Nat)) : Outcome (List (Nat × Nat)) :=
  if size ≠ 0 ∧ base = NULL then Outcome.fault filled
  else Outcome.returned (filled ++ [(base, size)])

/-- `Server::generateRandomContent`: the LOCAL, REMOTE and PMEM regions are
filled in this order, each over `count * PAGE_SIZE` bytes; the result lists the
ranges written. -/
def generateRandomContent (m : ServerMemory) : Outcome (List (Nat × Nat)) :=
  let local_size := (m.local_page_count_ * PAGE_SIZE) % SIZE_MOD
  let remote_size := (m.remote_page_count_ * PAGE_SIZE) % SIZE_MOD
  let pmem_size := (m.pmem_page_count_ * PAGE_SIZE) % SIZE_MOD
  match fillRegion m.local_base_ local_size [] with
  | Outcome.returned filled1 =>
    match fillRegion m.remote_base_ remote_size filled1 with
    | Outcome.returned filled2 => fillRegion m.pmem_base_ pmem_size filled2
    | Outcome.exited filled2 => Outcome.exited filled2
    | Outcome.fault filled2 => Outcome.fault filled2
  | Outcome.exited filled1 => Outcome.exited filled1
  | Outcome.fault filled1 => Outcome.fault filled1

/-- The steps of the constructor `Server::Server` from `allocateMemory` to
`generateRandomContent`: when `allocateMemory` returns, the constructor goes
on to fill the regions. -/
def constructorFill (m : ServerMemory) (config : ServerMemoryConfig) (os : AllocAnswers) :
    Outcome (List (Nat × Nat)) :=
  match allocateMemory m config os with
  | Outcome.returned m1 => generateRandomContent m1
  | Outcome.exited _ => Outcome.exited []
  | Outcome.fault _ => Outcome.fault []

/-- The region members before `allocateMemory` runs. -/
def noMemory : ServerMemory :=
  { local_page_count_ := 0, remote_page_count_ := 0, pmem_page_count_ := 0,
    local_base_ := NULL, remote_base_ := NULL, pmem_base_ := NULL, syscalls := [] }

/-! ## Concrete states used as examples -/

/-- All counters zero. -/
def zeroMetrics : Metrics :=
  { local_access := 0, remote_access := 0, pmem_access := 0,
    local_to_remote := 0, remote_to_local := 0, pmem_to_remote := 0, remote_to_pmem := 0 }

/-- A fresh page `i` of tier `layer`, backed at address `4096 * (i + 1)`. -/
def freshPage (i : Nat) (layer : PageLayer) : PageMetadata :=
  { page_id := i, page_address := 4096 * (i + 1), page_layer := layer,
    last_access_time := 0, access_count := 0 }

/-- A server with one client of three pages, one page in each tier. -/
def threeTierState : ServerState :=
  { base_page_id_ := (computeBases [3]).1,
    page_table_ := [freshPage 0 PageLayer.NUMA_LOCAL, freshPage 1 PageLayer.NUMA_REMOTE,
                    freshPage 2 PageLayer.PMEM],
    metrics := zeroMetrics,
    move_pages_calls := [] }

/-- Answers of the operating system in which the LOCAL and PMEM regions are
acquired and the mapping of the REMOTE region fails. -/
def remoteMapFails : AllocAnswers :=
  { local_mmap := 65536, remote_mmap := MAP_FAILED, remote_mbind := 0,
    pmem_mmap := 196608, pmem_mbind := 0 }

/-- Answers of the operating system in which all three mappings succeed and
the binding of the PMEM region to its node fails. -/
def pmemBindFails : AllocAnswers :=
  { local_mmap := 65536, remote_mmap := 131072, remote_mbind := 0,
    pmem_mmap := 196608, pmem_mbind := -1 }

/-- Capacities of one page per tier, those of `threeTierState`. -/
def onePagePerTier : ServerMemoryConfig :=
  { local_numa_size := 1, remote_numa_size := 1, pmem_size := 1 }

/-! ## Theorems -/

/-- C1. One scanner step decides exactly as the per-tier policy table, with
hot := `access_count ≥ hot threshold` and cold := the cold predicate: LOCAL and
cold emits one request to REMOTE, LOCAL and not cold nothing; REMOTE and cold
one request to PMEM whatever the access count; REMOTE, not cold and hot one
request to LOCAL; REMOTE, not cold, not hot nothing; PMEM and hot one request
to REMOTE whatever the idle time; PMEM and not hot nothing. Every request
carries the snapshot's page id. -/
theorem classifierStep_policy_table (page : PageMetadata) (current_time : Int)
    (min_access_count : Nat) (time_threshold : Int) :
    classifierStep page current_time min_access_count time_threshold =
      match page.page_layer, classifyColdPage page current_time time_threshold,
          decide (page.access_count ≥ min_access_count) with
      | PageLayer.NUMA_LOCAL, true, _ => [{ page_id := page.page_id, layer_id := PageLayer.NUMA_REMOTE }]
      | PageLayer.NUMA_LOCAL, false, _ => []
      | PageLayer.NUMA_REMOTE, true, _ => [{ page_id := page.page_id, layer_id := PageLayer.PMEM }]
      | PageLayer.NUMA_REMOTE, false, true => [{ page_id := page.page_id, layer_id := PageLayer.NUMA_LOCAL }]
      | PageLayer.NUMA_REMOTE, false, false => []
      | PageLayer.PMEM, _, true => [{ page_id := page.page_id, layer_id := PageLayer.NUMA_REMOTE }]
      | PageLayer.PMEM, _, false => [] := by
  unfold classifierStep classifyHotPage
  cases hl : page.page_layer <;>
    cases hc : classifyColdPage page current_time time_threshold <;>
    cases hh : decide (page.access_count ≥ min_access_count) <;> simp

/-- C6. For a snapshot whose last access is not later than the current time,
`classifyColdPage` answers true exactly when the exact elapsed time (in ticks)
is at least the threshold (a whole number of seconds, expressed in ticks):
truncation to whole seconds does not change the answer. -/
theorem classifyColdPage_exact (page : PageMetadata) (current_time : Int) (time_threshold : Int)
    (h : page.last_access_time ≤ current_time) :
    classifyColdPage page current_time time_threshold = true ↔
      time_threshold * TICKS_PER_SECOND ≤ current_time - page.last_access_time := by
  unfold classifyColdPage
  have he : 0 ≤ current_time - page.last_access_time := by omega
  have hpos : (0 : Int) < TICKS_PER_SECOND := by decide
  simp only [ge_iff_le, decide_eq_true_eq]
  rw [Int.tdiv_eq_ediv he (le_of_lt hpos)]
  exact Int.le_ediv_iff_mul_le hpos

/-- The instance of C6 for a page last accessed at tick 0, read 2.5 seconds
later against a threshold of 2 seconds. -/
theorem classifyColdPage_exact_witness :
    classifyColdPage (freshPage 0 PageLayer.NUMA_LOCAL) 2500000000 2 = true ↔
      2 * TICKS_PER_SECOND ≤ 2500000000 - (freshPage 0 PageLayer.NUMA_LOCAL).last_access_time :=
  classifyColdPage_exact (freshPage 0 PageLayer.NUMA_LOCAL) 2500000000 2 (by decide)

/-! ### Lemmas on the page table -/

theorem length_updateEntry (f : PageMetadata → PageMetadata) (table : List PageMetadata)
    (index : Nat) : (updateEntry f table index).length = table.length := by
  induction table generalizing index with
  | nil => rfl
  | cons p ps ih =>
    cases index with
    | zero => rfl
    | succ n => simp [updateEntry, ih]

theorem getPage_updateEntry_self (f : PageMetadata → PageMetadata) (table : List PageMetadata)
    (index : Nat) : getPage (updateEntry f table index) index = (getPage table index).map f := by
  induction table generalizing index with
  | nil => simp [updateEntry, getPage]
  | cons p ps ih =>
    cases index with
    | zero => simp [updateEntry, getPage]
    | succ n =>
      have := ih n
      simp only [getPage] at this
      simp [updateEntry, getPage, this]

theorem getPage_updateEntry_ne (f : PageMetadata → PageMetadata) (table : List PageMetadata)
    (index other : Nat) (h : other ≠ index) :
    getPage (updateEntry f table index) other = getPage table other := by
  induction table generalizing index other with
  | nil => simp [updateEntry, getPage]
  | cons p ps ih =>
    cases index with
    | zero =>
      cases other with
      | zero => exact absurd rfl h
      | succ m => simp [updateEntry, getPage]
    | succ n =>
      cases other with
      | zero => simp [updateEntry, getPage]
      | succ m =>
        have := ih n m (by omega)
        simp only [getPage] at this
        simp [updateEntry, getPage, this]

theorem map_updateEntry_of_invariant {β : Type} (g : PageMetadata → β)
    (f : PageMetadata → PageMetadata) (hf : ∀ p, g (f p) = g p)
    (table : List PageMetadata) (index : Nat) :
    (updateEntry f table index).map g = table.map g := by
  induction table generalizing index with
  | nil => rfl
  | cons p ps ih =>
    cases index with
    | zero => simp [updateEntry, hf]
    | succ n => simp [updateEntry, ih]

theorem tierCount_sum (table : List PageMetadata) :
    tierCount PageLayer.NUMA_LOCAL table + tierCount PageLayer.NUMA_REMOTE table +
      tierCount PageLayer.PMEM table = table.length := by
  induction table with
  | nil => rfl
  | cons p ps ih =>
    unfold tierCount at ih ⊢
    cases hl : p.page_layer <;> simp [List.countP_cons, hl] <;> omega

/-! ### Migration handler -/

/-- C2. Migration idempotence: a request `(pid, T)` for a page whose tier is
already `T` makes `handleMemoryMoveRequest` return with the very same state:
the page table (tiers and backing addresses), the trace of `move_pages` calls
and all counters are as before. -/
theorem handleMemoryMoveRequest_idempotent (s : ServerState) (req : MemMoveReq)
    (os : MoveResult) (h : tierOf s req.page_id = some req.layer_id) :
    handleMemoryMoveRequest s req os = Outcome.returned s ∧
      (handleMemoryMoveRequest s req os).state.page_table_ = s.page_table_ ∧
      (handleMemoryMoveRequest s req os).state.move_pages_calls = s.move_pages_calls ∧
      (handleMemoryMoveRequest s req os).state.metrics = s.metrics := by
  have key : handleMemoryMoveRequest s req os = Outcome.returned s := by
    unfold tierOf at h
    unfold handleMemoryMoveRequest
    cases hp : getPage s.page_table_ req.page_id with
    | none => simp [hp] at h
    | some page_meta =>
      rw [hp] at h
      have hl : page_meta.page_layer = req.layer_id := by simpa using h
      simp [hl]
  rw [key]
  exact ⟨rfl, rfl, rfl, rfl⟩

/-- The instance of C2 at the three-page example: a request to move page 0 to
LOCAL, where it already is. -/
theorem handleMemoryMoveRequest_idempotent_witness :
    tierOf threeTierState 0 = some PageLayer.NUMA_LOCAL ∧
    handleMemoryMoveRequest threeTierState { page_id := 0, layer_id := PageLayer.NUMA_LOCAL }
      { ret := 0, status := 0 } = Outcome.returned threeTierState :=
  ⟨by decide,
   (handleMemoryMoveRequest_idempotent threeTierState
      { page_id := 0, layer_id := PageLayer.NUMA_LOCAL } { ret := 0, status := 0 }
      (by decide)).1⟩

/-- C3. Successful migration: for a request `(pid, T)` on a page of tier `S`,
`S ≠ T`, with `(S, T)` one of LOCAL→REMOTE, REMOTE→LOCAL, REMOTE→PMEM,
PMEM→REMOTE, and a successful `move_pages` call, `handleMemoryMoveRequest`
returns with `tier(pid) = T`, the tier of every other page unchanged, the
counter of `S → T` incremented by exactly one and the other three transition
counters unchanged. -/
theorem handleMemoryMoveRequest_success (s : ServerState) (req : MemMoveReq)
    (os : MoveResult) (S : PageLayer)
    (hS : tierOf s req.page_id = some S) (hne : S ≠ req.layer_id)
    (hpair : (S = PageLayer.NUMA_LOCAL ∧ req.layer_id = PageLayer.NUMA_REMOTE) ∨
             (S = PageLayer.NUMA_REMOTE ∧ req.layer_id = PageLayer.NUMA_LOCAL) ∨
             (S = PageLayer.NUMA_REMOTE ∧ req.layer_id = PageLayer.PMEM) ∨
             (S = PageLayer.PMEM ∧ req.layer_id = PageLayer.NUMA_REMOTE))
    (hos : os.succeeded) :
    ∃ s1, handleMemoryMoveRequest s req os = Outcome.returned s1 ∧
      tierOf s1 req.page_id = some req.layer_id ∧
      (∀ q, q ≠ req.page_id → tierOf s1 q = tierOf s q) ∧
      s1.metrics.local_to_remote = s.metrics.local_to_remote +
        (if S = PageLayer.NUMA_LOCAL ∧ req.layer_id = PageLayer.NUMA_REMOTE then 1 else 0) ∧
      s1.metrics.remote_to_local = s.metrics.remote_to_local +
        (if S = PageLayer.NUMA_REMOTE ∧ req.layer_id = PageLayer.NUMA_LOCAL then 1 else 0) ∧
      s1.metrics.remote_to_pmem = s.metrics.remote_to_pmem +
        (if S = PageLayer.NUMA_REMOTE ∧ req.layer_id = PageLayer.PMEM then 1 else 0) ∧
      s1.metrics.pmem_to_remote = s.metrics.pmem_to_remote +
        (if S = PageLayer.PMEM ∧ req.layer_id = PageLayer.NUMA_REMOTE then 1 else 0) := by
  unfold tierOf at hS
  cases hp : getPage s.page_table_ req.page_id with
  | none => simp [hp] at hS
  | some page_meta =>
    rw [hp] at hS
    have hl : page_meta.page_layer = S := by simpa using hS
    have hret : move_page_to_node os = true := by
      unfold move_page_to_node
      simp [hos.1]
    have hne2 : ¬ page_meta.page_layer = req.layer_id := by rw [hl]; exact hne
    refine ⟨_, by unfold handleMemoryMoveRequest; simp only [hp, hne2, hret, if_true, if_false]; rfl,
      ?_, ?_, ?_⟩
    · simp only [tierOf, updatePageLayer, getPage_updateEntry_self, hp]
      rfl
    · intro q hq
      simp only [tierOf, updatePageLayer, getPage_updateEntry_ne _ _ _ _ hq]
    · rw [hl]
      rcases hpair with ⟨h1, h2⟩ | ⟨h1, h2⟩ | ⟨h1, h2⟩ | ⟨h1, h2⟩ <;> simp [h1, h2]

/-- The instance of C3 at the three-page example: page 0 moves from LOCAL to
REMOTE. -/
theorem handleMemoryMoveRequest_success_witness :
    ∃ s1, handleMemoryMoveRequest threeTierState
        { page_id := 0, layer_id := PageLayer.NUMA_REMOTE } { ret := 0, status := 0 } =
          Outcome.returned s1 ∧
      tierOf s1 0 = some PageLayer.NUMA_REMOTE ∧
      s1.metrics.local_to_remote = 1 := by
  obtain ⟨s1, h1, h2, _, h4, _⟩ :=
    handleMemoryMoveRequest_success threeTierState
      { page_id := 0, layer_id := PageLayer.NUMA_REMOTE } { ret := 0, status := 0 }
      PageLayer.NUMA_LOCAL (by decide) (by decide) (Or.inl ⟨rfl, rfl⟩)
      ⟨by decide, by decide⟩
  exact ⟨s1, h1, h2, by simpa [threeTierState, zeroMetrics] using h4⟩

/-- C4, as stated, fails: in the three-page example a request to move page 0
from LOCAL to REMOTE whose `move_pages` call returns `-1` does not return to
the caller; the process exits. -/
theorem handleMemoryMoveRequest_failure_is_fatal :
    tierOf threeTierState 0 ≠ some PageLayer.NUMA_REMOTE ∧
    ¬ (MoveResult.mk (-1) 0).succeeded ∧
    (∃ s1, handleMemoryMoveRequest threeTierState
        { page_id := 0, layer_id := PageLayer.NUMA_REMOTE } { ret := -1, status := 0 } =
          Outcome.exited s1) ∧
    ¬ ∃ s1, handleMemoryMoveRequest threeTierState
        { page_id := 0, layer_id := PageLayer.NUMA_REMOTE } { ret := -1, status := 0 } =
          Outcome.returned s1 := by
  have hx : ∃ s1, handleMemoryMoveRequest threeTierState
      { page_id := 0, layer_id := PageLayer.NUMA_REMOTE } { ret := -1, status := 0 } =
        Outcome.exited s1 := ⟨_, rfl⟩
  refine ⟨by decide, ?_, hx, ?_⟩
  · intro h
    exact absurd h.1 (by decide)
  · rintro ⟨s1, h⟩
    obtain ⟨s2, h2⟩ := hx
    rw [h2] at h
    cases h

/-- The other way a migration can fail: `move_pages` returns zero and reports
a negative status for the page. `move_page_to_node` does not read the status,
so the handler returns and records the target tier. -/
theorem handleMemoryMoveRequest_negative_status :
    ¬ (MoveResult.mk 0 (-14)).succeeded ∧
    ∃ s1, handleMemoryMoveRequest threeTierState
        { page_id := 0, layer_id := PageLayer.NUMA_REMOTE } { ret := 0, status := -14 } =
          Outcome.returned s1 ∧
      tierOf s1 0 = some PageLayer.NUMA_REMOTE := by
  refine ⟨?_, _, rfl, by decide⟩
  intro h
  exact absurd h.2 (by decide)

/-- C4, amended. For a request `(pid, T)` on a page whose tier is not `T`, if
the `move_pages` call returns non-zero, `handleMemoryMoveRequest` does not
return: the process exits, and at that moment the page table, hence
`tier(pid)`, is as it was before the request. -/
theorem handleMemoryMoveRequest_failure_exits (s : ServerState) (req : MemMoveReq)
    (os : MoveResult) (S : PageLayer)
    (hS : tierOf s req.page_id = some S) (hne : S ≠ req.layer_id) (hos : os.ret ≠ 0) :
    ∃ s1, handleMemoryMoveRequest s req os = Outcome.exited s1 ∧
      s1.page_table_ = s.page_table_ ∧ tierOf s1 req.page_id = some S := by
  unfold tierOf at hS
  cases hp : getPage s.page_table_ req.page_id with
  | none => simp [hp] at hS
  | some page_meta =>
    have hS2 := hS
    rw [hp] at hS2
    have hl : page_meta.page_layer = S := by simpa using hS2
    have hret : move_page_to_node os = false := by
      unfold move_page_to_node
      simp [hos]
    have hne2 : ¬ page_meta.page_layer = req.layer_id := by rw [hl]; exact hne
    unfold handleMemoryMoveRequest
    simp only [hp, hne2, hret, if_false, Bool.false_eq_true]
    refine ⟨_, rfl, rfl, ?_⟩
    simpa [tierOf] using hS

/-- The instance of the amended C4 at the three-page example. -/
theorem handleMemoryMoveRequest_failure_exits_witness :
    ∃ s1, handleMemoryMoveRequest threeTierState
        { page_id := 0, layer_id := PageLayer.NUMA_REMOTE } { ret := -1, status := 0 } =
          Outcome.exited s1 ∧
      s1.page_table_ = threeTierState.page_table_ ∧
      tierOf s1 0 = some PageLayer.NUMA_LOCAL :=
  handleMemoryMoveRequest_failure_exits threeTierState
    { page_id := 0, layer_id := PageLayer.NUMA_REMOTE } { ret := -1, status := 0 }
    PageLayer.NUMA_LOCAL (by decide) (by decide) (by decide)

/-! ### Frame lemmas of the handlers -/

theorem handleMemoryMoveRequest_addresses (s : ServerState) (req : MemMoveReq)
    (os : MoveResult) :
    (handleMemoryMoveRequest s req os).state.page_table_.map (fun p => p.page_address) =
      s.page_table_.map (fun p => p.page_address) := by
  unfold handleMemoryMoveRequest
  cases hp : getPage s.page_table_ req.page_id with
  | none => rfl
  | some page_meta =>
    by_cases hl : page_meta.page_layer = req.layer_id
    · simp [hl, Outcome.state]
    · cases hm : move_page_to_node os
      · simp [hl, hm, Outcome.state]
      · simp only [hl, hm, if_false, if_true, Outcome.state, updatePageLayer]
        exact map_updateEntry_of_invariant (fun p => p.page_address) _ (by intro p; rfl) _ _

theorem handleClientMessage_addresses (s : ServerState) (msg : ClientMessage) (now : Int) :
    (handleClientMessage s msg now).state.page_table_.map (fun p => p.page_address) =
      s.page_table_.map (fun p => p.page_address) := by
  unfold handleClientMessage
  cases hr : resolvePageId s.base_page_id_ msg.client_id msg.offset with
  | none => rfl
  | some actual_id =>
    cases hp : getPage s.page_table_ actual_id with
    | none => simp [hp, Outcome.state]
    | some page_meta =>
      simp only [hp, Outcome.state, updateAccess]
      exact map_updateEntry_of_invariant (fun p => p.page_address) _ (by intro p; rfl) _ _

theorem handleClientMessage_tiers (s : ServerState) (msg : ClientMessage) (now : Int) :
    (handleClientMessage s msg now).state.page_table_.map (fun p => p.page_layer) =
      s.page_table_.map (fun p => p.page_layer) := by
  unfold handleClientMessage
  cases hr : resolvePageId s.base_page_id_ msg.client_id msg.offset with
  | none => rfl
  | some actual_id =>
    cases hp : getPage s.page_table_ actual_id with
    | none => simp [hp, Outcome.state]
    | some page_meta =>
      simp only [hp, Outcome.state, updateAccess]
      exact map_updateEntry_of_invariant (fun p => p.page_layer) _ (by intro p; rfl) _ _

theorem serverCall_addresses (s : ServerState) (c : ServerCall) :
    (serverCall s c).state.page_table_.map (fun p => p.page_address) =
      s.page_table_.map (fun p => p.page_address) := by
  cases c with
  | clientMessage msg now => exact handleClientMessage_addresses s msg now
  | memoryMove req os => exact handleMemoryMoveRequest_addresses s req os

theorem runCalls_addresses (s : ServerState) (calls : List ServerCall) :
    (runCalls s calls).state.page_table_.map (fun p => p.page_address) =
      s.page_table_.map (fun p => p.page_address) := by
  induction calls generalizing s with
  | nil => rfl
  | cons c cs ih =>
    have hc := serverCall_addresses s c
    unfold runCalls
    cases hs : serverCall s c with
    | returned s1 =>
      rw [hs] at hc
      simp only [Outcome.state] at hc
      simp only [ih s1, hc]
    | exited s1 =>
      rw [hs] at hc
      simpa [Outcome.state] using hc
    | fault s1 =>
      rw [hs] at hc
      simpa [Outcome.state] using hc

theorem addressOf_eq_of_map_eq (s1 s2 : ServerState)
    (h : s1.page_table_.map (fun p => p.page_address) =
      s2.page_table_.map (fun p => p.page_address)) (pid : Nat) :
    addressOf s1 pid = addressOf s2 pid := by
  have := congrArg (fun l => l[pid]?) h
  simpa [addressOf, getPage, List.getElem?_map] using this

theorem runCalls_length (s : ServerState) (calls : List ServerCall) :
    (runCalls s calls).state.page_table_.length = s.page_table_.length := by
  have := congrArg List.length (runCalls_addresses s calls)
  simpa using this

/-- C9. Address stability: whatever the page table state, the request and the
answer of the operating system (request dropped, carried out, or ended by
process exit), `handleMemoryMoveRequest` leaves the backing address of every
page as it was; and so does every sequence of migration requests. -/
theorem migration_address_stable (s : ServerState) :
    (∀ (req : MemMoveReq) (os : MoveResult) (pid : Nat),
      addressOf (handleMemoryMoveRequest s req os).state pid = addressOf s pid) ∧
    (∀ (reqs : List (MemMoveReq × MoveResult)) (pid : Nat),
      addressOf (runCalls s (reqs.map (fun r => ServerCall.memoryMove r.1 r.2))).state pid =
        addressOf s pid) := by
  constructor
  · intro req os pid
    exact addressOf_eq_of_map_eq _ _ (handleMemoryMoveRequest_addresses s req os) pid
  · intro reqs pid
    exact addressOf_eq_of_map_eq _ _ (runCalls_addresses s _) pid

/-- C7, as stated, fails: the three-page example starts with one page per tier,
the capacities being one page per tier. Page 0, LOCAL and idle for ten
seconds, is cold for a threshold of one second, so the scanner requests its
move to REMOTE; after that single successful request two pages are REMOTE,
more than the REMOTE capacity. -/
theorem tier_capacity_exceeded :
    tierCount PageLayer.NUMA_LOCAL threeTierState.page_table_ = onePagePerTier.local_numa_size ∧
    tierCount PageLayer.NUMA_REMOTE threeTierState.page_table_ = onePagePerTier.remote_numa_size ∧
    tierCount PageLayer.PMEM threeTierState.page_table_ = onePagePerTier.pmem_size ∧
    classifierStep (freshPage 0 PageLayer.NUMA_LOCAL) 10000000000 5 1 =
      [{ page_id := 0, layer_id := PageLayer.NUMA_REMOTE }] ∧
    ∃ s1, runCalls threeTierState
        [ServerCall.memoryMove { page_id := 0, layer_id := PageLayer.NUMA_REMOTE }
          { ret := 0, status := 0 }] = Outcome.returned s1 ∧
      tierCount PageLayer.NUMA_REMOTE s1.page_table_ = 2 ∧
      ¬ tierCount PageLayer.NUMA_REMOTE s1.page_table_ ≤ onePagePerTier.remote_numa_size := by
  refine ⟨by decide, by decide, by decide, by decide, _, rfl, by decide, by decide⟩

/-- C7, amended. From an initial state whose per-tier page counts equal the
configured capacities, after any sequence of `handleClientMessage` and
`handleMemoryMoveRequest` calls the numbers of LOCAL, REMOTE and PMEM pages
sum to `N`, the sum of the capacities and the size of the page table. -/
theorem tier_count_conservation (config : ServerMemoryConfig) (s0 : ServerState)
    (calls : List ServerCall)
    (hl : tierCount PageLayer.NUMA_LOCAL s0.page_table_ = config.local_numa_size)
    (hr : tierCount PageLayer.NUMA_REMOTE s0.page_table_ = config.remote_numa_size)
    (hp : tierCount PageLayer.PMEM s0.page_table_ = config.pmem_size) :
    tierCount PageLayer.NUMA_LOCAL (runCalls s0 calls).state.page_table_ +
        tierCount PageLayer.NUMA_REMOTE (runCalls s0 calls).state.page_table_ +
        tierCount PageLayer.PMEM (runCalls s0 calls).state.page_table_ =
      config.local_numa_size + config.remote_numa_size + config.pmem_size ∧
    (runCalls s0 calls).state.page_table_.length =
      config.local_numa_size + config.remote_numa_size + config.pmem_size := by
  have h0 := tierCount_sum s0.page_table_
  have h1 := tierCount_sum (runCalls s0 calls).state.page_table_
  have h2 := runCalls_length s0 calls
  omega

/-- The instance of the amended C7 at the three-page example, for an access
followed by a migration. -/
theorem tier_count_conservation_witness :
    tierCount PageLayer.NUMA_LOCAL (runCalls threeTierState
        [ServerCall.clientMessage { client_id := 0, offset := 1, op_type := OperationType.READ } 5,
         ServerCall.memoryMove { page_id := 0, layer_id := PageLayer.NUMA_REMOTE }
           { ret := 0, status := 0 }]).state.page_table_ +
      tierCount PageLayer.NUMA_REMOTE (runCalls threeTierState
        [ServerCall.clientMessage { client_id := 0, offset := 1, op_type := OperationType.READ } 5,
         ServerCall.memoryMove { page_id := 0, layer_id := PageLayer.NUMA_REMOTE }
           { ret := 0, status := 0 }]).state.page_table_ +
      tierCount PageLayer.PMEM (runCalls threeTierState
        [ServerCall.clientMessage { client_id := 0, offset := 1, op_type := OperationType.READ } 5,
         ServerCall.memoryMove { page_id := 0, layer_id := PageLayer.NUMA_REMOTE }
           { ret := 0, status := 0 }]).state.page_table_ = 1 + 1 + 1 :=
  (tier_count_conservation onePagePerTier threeTierState _
    (by decide) (by decide) (by decide)).1

/-! ### Access handler -/

theorem sum_take_le (l : List Nat) (a : Nat) : (l.take a).sum ≤ l.sum := by
  induction l generalizing a with
  | nil => simp
  | cons x xs ih =>
    cases a with
    | zero => simp
    | succ n =>
      have := ih n
      simp only [List.take_succ_cons, List.sum_cons]
      omega

theorem sum_take_mono (l : List Nat) (a b : Nat) (h : a ≤ b) :
    (l.take a).sum ≤ (l.take b).sum := by
  induction l generalizing a b with
  | nil => simp
  | cons x xs ih =>
    cases a with
    | zero => simp
    | succ n =>
      cases b with
      | zero => omega
      | succ m =>
        have := ih n m (by omega)
        simp only [List.take_succ_cons, List.sum_cons]
        omega

theorem sum_take_succ (l : List Nat) (i x : Nat) (h : l[i]? = some x) :
    (l.take (i + 1)).sum = (l.take i).sum + x := by
  induction l generalizing i with
  | nil => simp at h
  | cons y ys ih =>
    cases i with
    | zero =>
      simp only [List.getElem?_cons_zero, Option.some.injEq] at h
      simp [h]
    | succ n =>
      simp only [List.getElem?_cons_succ] at h
      have := ih n h
      simp only [List.take_succ_cons, List.sum_cons] at this ⊢
      omega

theorem foldl_bases (sizes : List Nat) (acc : List Nat) (cur : Nat)
    (h : cur + sizes.sum < SIZE_MOD) :
    (sizes.foldl (fun (a : List Nat × Nat) size => (a.1 ++ [a.2], (a.2 + size) % SIZE_MOD))
        (acc, cur)).2 = cur + sizes.sum ∧
    (sizes.foldl (fun (a : List Nat × Nat) size => (a.1 ++ [a.2], (a.2 + size) % SIZE_MOD))
        (acc, cur)).1.length = acc.length + sizes.length ∧
    (∀ i, i < acc.length →
      (sizes.foldl (fun (a : List Nat × Nat) size => (a.1 ++ [a.2], (a.2 + size) % SIZE_MOD))
        (acc, cur)).1[i]? = acc[i]?) ∧
    (∀ i, i < sizes.length →
      (sizes.foldl (fun (a : List Nat × Nat) size => (a.1 ++ [a.2], (a.2 + size) % SIZE_MOD))
        (acc, cur)).1[acc.length + i]? = some (cur + (sizes.take i).sum)) := by
  induction sizes generalizing acc cur with
  | nil => simp
  | cons x xs ih =>
    simp only [List.sum_cons] at h
    have hx : (cur + x) % SIZE_MOD = cur + x := Nat.mod_eq_of_lt (by omega)
    simp only [List.foldl_cons, hx]
    obtain ⟨h1, h2, h3, h4⟩ := ih (acc ++ [cur]) (cur + x) (by omega)
    refine ⟨?_, ?_, ?_, ?_⟩
    · rw [h1]; simp only [List.sum_cons]; omega
    · rw [h2]; simp only [List.length_append, List.length_cons, List.length_nil]; omega
    · intro i hi
      rw [h3 i (by simp; omega)]
      exact List.getElem?_append_left hi
    · intro i hi
      cases i with
      | zero =>
        rw [Nat.add_zero, h3 acc.length (by simp)]
        simp
      | succ n =>
        have := h4 n (by simpa using hi)
        simp only [List.length_append, List.length_cons, List.length_nil] at this
        rw [show acc.length + (n + 1) = acc.length + 0 + 1 + n by omega, this]
        simp only [List.take_succ_cons, List.sum_cons]
        congr 1
        omega

theorem computeBases_spec (sizes : List Nat) (h : sizes.sum < SIZE_MOD) :
    (computeBases sizes).2 = sizes.sum ∧
    (computeBases sizes).1.length = sizes.length ∧
    (∀ i, i < sizes.length → (computeBases sizes).1[i]? = some (sizes.take i).sum) := by
  obtain ⟨h1, h2, _, h4⟩ := foldl_bases sizes [] 0 (by omega)
  unfold computeBases
  refine ⟨by simpa using h1, by simpa using h2, ?_⟩
  intro i hi
  simpa using h4 i hi

theorem resolvePageId_spec (sizes : List Nat) (h : sizes.sum < SIZE_MOD) (i size offset : Nat)
    (hs : sizes[i]? = some size) (ho : offset < size) :
    resolvePageId (computeBases sizes).1 i offset = some ((sizes.take i).sum + offset) ∧
      (sizes.take i).sum + offset < sizes.sum := by
  have hi : i < sizes.length := by
    rcases Nat.lt_or_ge i sizes.length with hlt | hge
    · exact hlt
    · rw [List.getElem?_eq_none hge] at hs
      cases hs
  have hb := (computeBases_spec sizes h).2.2 i hi
  have h1 := sum_take_succ sizes i size hs
  have h2 := sum_take_le sizes (i + 1)
  have hlt : (sizes.take i).sum + offset < sizes.sum := by omega
  refine ⟨?_, hlt⟩
  unfold resolvePageId
  rw [hb]
  simp only [Option.some.injEq]
  exact Nat.mod_eq_of_lt (by omega)

/-- C5, as stated, fails: for the sizes `[2 ^ 64 - 1, 2]` the accumulation of
the constructor wraps. The bases are `[0, 2 ^ 64 - 1]` and the page table is
created with `N = 1`, not with the sum `2 ^ 64 + 1` of the sizes; client 1 at
offset 0 (below its size 2) resolves to `2 ^ 64 - 1`, not below `N`; and
client 0 at offset 0 and client 1 at offset 1, both in range, resolve to the
same page id 0. -/
theorem client_ranges_wrap :
    (computeBases [18446744073709551615, 2]).1 = [0, 18446744073709551615] ∧
    (computeBases [18446744073709551615, 2]).2 = 1 ∧
    (computeBases [18446744073709551615, 2]).2 ≠ ([18446744073709551615, 2] : List Nat).sum ∧
    ([18446744073709551615, 2] : List Nat)[1]? = some 2 ∧ 0 < 2 ∧
    resolvePageId (computeBases [18446744073709551615, 2]).1 1 0 = some 18446744073709551615 ∧
    ¬ 18446744073709551615 < (computeBases [18446744073709551615, 2]).2 ∧
    ([18446744073709551615, 2] : List Nat)[0]? = some 18446744073709551615 ∧
    0 < 18446744073709551615 ∧ 1 < 2 ∧
    resolvePageId (computeBases [18446744073709551615, 2]).1 0 0 =
      resolvePageId (computeBases [18446744073709551615, 2]).1 1 1 ∧
    ¬ ((0 : Nat) = 1 ∧ (0 : Nat) = 1) := by
  have hb : computeBases [18446744073709551615, 2] = ([0, 18446744073709551615], 1) := by
    simp [computeBases, SIZE_MOD]
  rw [hb]
  refine ⟨rfl, rfl, by simp, rfl, by omega, ?_, by omega, rfl, by omega, by omega, ?_, by omega⟩
  · simp [resolvePageId, SIZE_MOD]
  · simp [resolvePageId, SIZE_MOD]

/-- C5, amended. Client address ranges are contiguous and disjoint when the
sizes sum to less than `2 ^ 64`, so that the `size_t` accumulation does not
wrap. For every such list of client sizes, the constructor's loop sets
`base[i]` to the sum of the sizes of the clients before `i` and leaves
`N = Σ sizes` as the page-table size; the page id `base[client_id] + offset`
resolved by `handleClientMessage` is below `N` for every offset below
`size[client_id]`; two different pairs `(client_id, offset)` with in-range
offsets never resolve to the same page id; and with sizes `[4, 4]`, client 0
offset 3 resolves to 3 and client 1 offset 3 to 7. -/
theorem client_ranges_contiguous_disjoint (sizes : List Nat) (h : sizes.sum < SIZE_MOD) :
    (computeBases sizes).1.length = sizes.length ∧
    (∀ i, i < sizes.length → (computeBases sizes).1[i]? = some (sizes.take i).sum) ∧
    (computeBases sizes).2 = sizes.sum ∧
    (∀ i size offset, sizes[i]? = some size → offset < size →
      ∃ pid, resolvePageId (computeBases sizes).1 i offset = some pid ∧
        pid = (sizes.take i).sum + offset ∧ pid < (computeBases sizes).2) ∧
    (∀ i j size_i size_j offset_i offset_j,
      sizes[i]? = some size_i → offset_i < size_i →
      sizes[j]? = some size_j → offset_j < size_j →
      resolvePageId (computeBases sizes).1 i offset_i =
        resolvePageId (computeBases sizes).1 j offset_j →
      i = j ∧ offset_i = offset_j) ∧
    resolvePageId (computeBases [4, 4]).1 0 3 = some 3 ∧
    resolvePageId (computeBases [4, 4]).1 1 3 = some 7 := by
  obtain ⟨hN, hlen, hbase⟩ := computeBases_spec sizes h
  refine ⟨hlen, hbase, hN, ?_, ?_, by decide, by decide⟩
  · intro i size offset hs ho
    obtain ⟨h1, h2⟩ := resolvePageId_spec sizes h i size offset hs ho
    exact ⟨_, h1, rfl, by rw [hN]; exact h2⟩
  · intro i j size_i size_j offset_i offset_j hsi hoi hsj hoj heq
    obtain ⟨hi1, _⟩ := resolvePageId_spec sizes h i size_i offset_i hsi hoi
    obtain ⟨hj1, _⟩ := resolvePageId_spec sizes h j size_j offset_j hsj hoj
    rw [hi1, hj1] at heq
    have heq2 : (sizes.take i).sum + offset_i = (sizes.take j).sum + offset_j := by
      simpa using heq
    have hsi2 := sum_take_succ sizes i size_i hsi
    have hsj2 := sum_take_succ sizes j size_j hsj
    rcases Nat.lt_trichotomy i j with hlt | heqij | hgt
    · have := sum_take_mono sizes (i + 1) j hlt
      omega
    · subst heqij
      exact ⟨rfl, by omega⟩
    · have := sum_take_mono sizes (j + 1) i hgt
      omega

/-- The instance of the amended C5 at the two clients of four pages each. -/
theorem client_ranges_contiguous_disjoint_witness :
    (computeBases [4, 4]).1.length = 2 ∧
    (computeBases [4, 4]).2 = 8 ∧
    (∀ i size offset, [4, 4][i]? = some size → offset < size →
      ∃ pid, resolvePageId (computeBases [4, 4]).1 i offset = some pid ∧
        pid = (([4, 4] : List Nat).take i).sum + offset ∧ pid < (computeBases [4, 4]).2) :=
  have h := client_ranges_contiguous_disjoint [4, 4] (by decide)
  ⟨h.1, h.2.2.1, h.2.2.2.1⟩

/-! ### Tier allocation -/

/-- The LOCAL part of C10 holds: when the mapping of the LOCAL region fails,
`allocateMemory` ends in process exit. -/
theorem allocateMemory_local_failure_exits (m : ServerMemory) (config : ServerMemoryConfig)
    (os : AllocAnswers) (h : os.local_mmap = MAP_FAILED) :
    ∃ m1, allocateMemory m config os = Outcome.exited m1 := by
  unfold allocateMemory allocate_pages
  simp only [h, if_true]
  exact ⟨_, rfl⟩

/-- Whenever the LOCAL mapping succeeds `allocateMemory` returns to the
constructor, whatever happens to the REMOTE and PMEM regions; a region whose
mapping or binding failed is recorded as `NULL`. -/
theorem allocateMemory_returns (m : ServerMemory) (config : ServerMemoryConfig)
    (os : AllocAnswers) (h : os.local_mmap ≠ MAP_FAILED) :
    ∃ m1, allocateMemory m config os = Outcome.returned m1 ∧
      (os.remote_mmap = MAP_FAILED ∨ os.remote_mbind ≠ 0 → m1.remote_base_ = NULL) ∧
      (os.pmem_mmap = MAP_FAILED ∨ os.pmem_mbind ≠ 0 → m1.pmem_base_ = NULL) := by
  unfold allocateMemory allocate_pages
  simp only [h, if_false]
  refine ⟨_, rfl, ?_, ?_⟩
  · intro hf
    unfold allocate_and_bind_to_numa
    rcases hf with hf | hf
    · simp [hf]
    · by_cases hm : os.remote_mmap = MAP_FAILED <;> simp [hm, hf]
  · intro hf
    unfold allocate_and_bind_to_numa
    rcases hf with hf | hf
    · simp [hf]
    · by_cases hm : os.pmem_mmap = MAP_FAILED <;> simp [hm, hf]

/-- C10 at the failing inputs. With one page per tier: when the mapping of the
REMOTE region fails, `allocateMemory` completes normally, with `remote_base_`
null; and when the binding of the PMEM region fails, `allocateMemory`
completes normally, with `pmem_base_` null. -/
theorem allocateMemory_completes_with_null_region :
    remoteMapFails.remote_mmap = MAP_FAILED ∧
    (∃ m1, allocateMemory noMemory { local_numa_size := 1, remote_numa_size := 1, pmem_size := 1 }
        remoteMapFails = Outcome.returned m1 ∧ m1.remote_base_ = NULL ∧
        m1.remote_page_count_ = 1) ∧
    pmemBindFails.pmem_mbind ≠ 0 ∧
    (∃ m1, allocateMemory noMemory { local_numa_size := 1, remote_numa_size := 1, pmem_size := 1 }
        pmemBindFails = Outcome.returned m1 ∧ m1.pmem_base_ = NULL ∧
        m1.pmem_page_count_ = 1) := by
  refine ⟨rfl, ⟨_, rfl, by decide, by decide⟩, by decide, ⟨_, rfl, by decide, by decide⟩⟩

/-- After `allocateMemory` has returned with a null region, the constructor
does not fill that region: `generateRandomContent` is killed at its first store
through the null base, having filled only the regions before it. -/
theorem constructorFill_stops_at_null_region :
    constructorFill noMemory { local_numa_size := 1, remote_numa_size := 1, pmem_size := 1 }
        remoteMapFails = Outcome.fault [(65536, 4096)] ∧
    constructorFill noMemory { local_numa_size := 1, remote_numa_size := 1, pmem_size := 1 }
        pmemBindFails = Outcome.fault [(65536, 4096), (131072, 4096)] := by
  refine ⟨by decide, by decide⟩


/-! ### Node binding -/

/-- What a successful `allocate_and_bind_to_numa` does: it returns the mapped
address, and the calls it issued are the mapping of `size * number` bytes, one
binding whose length argument is `size`, and the zeroing of `size * number`
bytes. -/
theorem allocate_and_bind_to_numa_success (size number numa_node mmap_ret : Nat)
    (mbind_ret : Int) (hmap : mmap_ret ≠ MAP_FAILED) (hbind : mbind_ret = 0) :
    allocate_and_bind_to_numa size number numa_node mmap_ret mbind_ret =
      (mmap_ret, [SysCall.mmap ((size * number) % SIZE_MOD) false,
                  SysCall.mbind mmap_ret size ((2 ^ numa_node) % SIZE_MOD),
                  SysCall.memset mmap_ret ((size * number) % SIZE_MOD)]) := by
  unfold allocate_and_bind_to_numa
  simp [hmap, hbind]

/-- C11 at the failing input. A successful
`allocate_and_bind_to_numa(4096, 2, 1)` whose mapping is at address 131072
returns that address for a region of 8192 bytes, which it maps and zeroes, but
the one binding it issues covers 4096 bytes from the returned address: the
range of the second page, from 135168, is inside the region and outside the
bound range. -/
theorem allocate_and_bind_to_numa_binds_first_page_only :
    allocate_and_bind_to_numa 4096 2 1 131072 0 =
      (131072, [SysCall.mmap 8192 false, SysCall.mbind 131072 4096 2,
                SysCall.memset 131072 8192]) ∧
    SysCall.mbind 131072 (4096 * 2) 2 ∉ (allocate_and_bind_to_numa 4096 2 1 131072 0).2 ∧
    (∀ addr len mask, SysCall.mbind addr len mask ∈ (allocate_and_bind_to_numa 4096 2 1 131072 0).2 →
      addr + len ≤ 131072 + 4096 * 1) := by
  refine ⟨by decide, by decide, ?_⟩
  intro addr len mask h
  have he : allocate_and_bind_to_numa 4096 2 1 131072 0 =
      (131072, [SysCall.mmap 8192 false, SysCall.mbind 131072 4096 2,
                SysCall.memset 131072 8192]) := by decide
  rw [he] at h
  simp only [List.mem_cons, List.mem_singleton, SysCall.mbind.injEq, List.mem_nil_iff,
    or_false, false_or, reduceCtorEq] at h
  obtain ⟨h1, h2, _⟩ := h
  omega


/-! ### Scanner requests at the migration handler -/

theorem classifierStep_mem (page : PageMetadata) (current_time : Int) (min_access_count : Nat)
    (time_threshold : Int) (req : MemMoveReq)
    (hmem : req ∈ classifierStep page current_time min_access_count time_threshold) :
    req.page_id = page.page_id ∧
    ((page.page_layer = PageLayer.NUMA_LOCAL ∧ req.layer_id = PageLayer.NUMA_REMOTE) ∨
     (page.page_layer = PageLayer.NUMA_REMOTE ∧ req.layer_id = PageLayer.NUMA_LOCAL) ∨
     (page.page_layer = PageLayer.NUMA_REMOTE ∧ req.layer_id = PageLayer.PMEM) ∨
     (page.page_layer = PageLayer.PMEM ∧ req.layer_id = PageLayer.NUMA_REMOTE)) := by
  unfold classifierStep at hmem
  cases hl : page.page_layer <;> rw [hl] at hmem <;> simp only at hmem
  · by_cases hc : classifyColdPage page current_time time_threshold = true
    · simp only [hc, if_true, List.mem_singleton] at hmem
      simp [hmem]
    · simp [hc] at hmem
  · by_cases hc : classifyColdPage page current_time time_threshold = true
    · simp only [hc, if_true, List.mem_singleton] at hmem
      simp [hmem]
    · by_cases hh : classifyHotPage page min_access_count = true
      · simp only [hc, hh, if_true, if_false, Bool.false_eq_true, List.mem_singleton] at hmem
        simp [hmem]
      · simp [hc, hh] at hmem
  · by_cases hh : classifyHotPage page min_access_count = true
    · simp only [hh, if_true, List.mem_singleton] at hmem
      simp [hmem]
    · simp [hh] at hmem

theorem handleMemoryMoveRequest_counters (s : ServerState) (req : MemMoveReq) (os : MoveResult)
    (S : PageLayer) (hS : tierOf s req.page_id = some S) (hne : S ≠ req.layer_id) :
    (handleMemoryMoveRequest s req os).state.move_pages_calls.length =
      s.move_pages_calls.length + 1 ∧
    (handleMemoryMoveRequest s req os).state.metrics.local_to_remote =
      s.metrics.local_to_remote +
        (if S = PageLayer.NUMA_LOCAL ∧ req.layer_id = PageLayer.NUMA_REMOTE then 1 else 0) ∧
    (handleMemoryMoveRequest s req os).state.metrics.remote_to_local =
      s.metrics.remote_to_local +
        (if S = PageLayer.NUMA_REMOTE ∧ req.layer_id = PageLayer.NUMA_LOCAL then 1 else 0) ∧
    (handleMemoryMoveRequest s req os).state.metrics.remote_to_pmem =
      s.metrics.remote_to_pmem +
        (if S = PageLayer.NUMA_REMOTE ∧ req.layer_id = PageLayer.PMEM then 1 else 0) ∧
    (handleMemoryMoveRequest s req os).state.metrics.pmem_to_remote =
      s.metrics.pmem_to_remote +
        (if S = PageLayer.PMEM ∧ req.layer_id = PageLayer.NUMA_REMOTE then 1 else 0) := by
  unfold tierOf at hS
  cases hp : getPage s.page_table_ req.page_id with
  | none => simp [hp] at hS
  | some page_meta =>
    rw [hp] at hS
    have hl : page_meta.page_layer = S := by simpa using hS
    have hne2 : ¬ page_meta.page_layer = req.layer_id := by rw [hl]; exact hne
    unfold handleMemoryMoveRequest
    simp only [hp, hne2, if_false, hl]
    cases hm : move_page_to_node os <;>
      cases S <;> cases hT : req.layer_id <;> simp [Outcome.state, hT] at hne ⊢

/-- C12. Every request a scanner step emits is a counted one-step transition:
it carries the snapshot's page id, its target differs from the snapshot's tier
and the pair (snapshot tier, target) is one of LOCAL→REMOTE, REMOTE→LOCAL,
REMOTE→PMEM, PMEM→REMOTE. So when `handleMemoryMoveRequest` handles it in a
state where the page's tier is still the snapshot's tier, the request is not
dropped (the handler does not return the unchanged state; it issues one
`move_pages` call), the counter of that pair is incremented by one and the
other three are unchanged, so the four counters together grow by exactly
one. -/
theorem scanner_request_is_counted_transition (page : PageMetadata) (current_time : Int)
    (min_access_count : Nat) (time_threshold : Int) (req : MemMoveReq)
    (hmem : req ∈ classifierStep page current_time min_access_count time_threshold) :
    req.page_id = page.page_id ∧
    req.layer_id ≠ page.page_layer ∧
    ((page.page_layer = PageLayer.NUMA_LOCAL ∧ req.layer_id = PageLayer.NUMA_REMOTE) ∨
     (page.page_layer = PageLayer.NUMA_REMOTE ∧ req.layer_id = PageLayer.NUMA_LOCAL) ∨
     (page.page_layer = PageLayer.NUMA_REMOTE ∧ req.layer_id = PageLayer.PMEM) ∨
     (page.page_layer = PageLayer.PMEM ∧ req.layer_id = PageLayer.NUMA_REMOTE)) ∧
    ∀ (s : ServerState) (os : MoveResult), tierOf s req.page_id = some page.page_layer →
      handleMemoryMoveRequest s req os ≠ Outcome.returned s ∧
      (handleMemoryMoveRequest s req os).state.move_pages_calls.length =
        s.move_pages_calls.length + 1 ∧
      (handleMemoryMoveRequest s req os).state.metrics.local_to_remote =
        s.metrics.local_to_remote +
          (if page.page_layer = PageLayer.NUMA_LOCAL ∧ req.layer_id = PageLayer.NUMA_REMOTE
            then 1 else 0) ∧
      (handleMemoryMoveRequest s req os).state.metrics.remote_to_local =
        s.metrics.remote_to_local +
          (if page.page_layer = PageLayer.NUMA_REMOTE ∧ req.layer_id = PageLayer.NUMA_LOCAL
            then 1 else 0) ∧
      (handleMemoryMoveRequest s req os).state.metrics.remote_to_pmem =
        s.metrics.remote_to_pmem +
          (if page.page_layer = PageLayer.NUMA_REMOTE ∧ req.layer_id = PageLayer.PMEM
            then 1 else 0) ∧
      (handleMemoryMoveRequest s req os).state.metrics.pmem_to_remote =
        s.metrics.pmem_to_remote +
          (if page.page_layer = PageLayer.PMEM ∧ req.layer_id = PageLayer.NUMA_REMOTE
            then 1 else 0) ∧
      (handleMemoryMoveRequest s req os).state.metrics.local_to_remote +
          (handleMemoryMoveRequest s req os).state.metrics.remote_to_local +
          (handleMemoryMoveRequest s req os).state.metrics.remote_to_pmem +
          (handleMemoryMoveRequest s req os).state.metrics.pmem_to_remote =
        s.metrics.local_to_remote + s.metrics.remote_to_local + s.metrics.remote_to_pmem +
          s.metrics.pmem_to_remote + 1 := by
  obtain ⟨hid, hpair⟩ := classifierStep_mem page current_time min_access_count time_threshold
    req hmem
  have hne : page.page_layer ≠ req.layer_id := by
    rcases hpair with ⟨h1, h2⟩ | ⟨h1, h2⟩ | ⟨h1, h2⟩ | ⟨h1, h2⟩ <;> rw [h1, h2] <;> decide
  refine ⟨hid, fun h => hne h.symm, hpair, ?_⟩
  intro s os hS
  obtain ⟨hc, h1, h2, h3, h4⟩ := handleMemoryMoveRequest_counters s req os page.page_layer hS hne
  refine ⟨?_, hc, h1, h2, h3, h4, ?_⟩
  · intro heq
    rw [heq] at hc
    simp [Outcome.state] at hc
  · rw [h1, h2, h3, h4]
    rcases hpair with ⟨e1, e2⟩ | ⟨e1, e2⟩ | ⟨e1, e2⟩ | ⟨e1, e2⟩ <;> simp [e1, e2] <;> omega

/-- The instance of C12 at the three-page example: page 0, LOCAL and idle for
ten seconds, is cold for a threshold of one second; the request the scanner
emits for it is handled with a successful `move_pages` call. -/
theorem scanner_request_is_counted_transition_witness :
    ({ page_id := 0, layer_id := PageLayer.NUMA_REMOTE } : MemMoveReq) ∈
      classifierStep (freshPage 0 PageLayer.NUMA_LOCAL) 10000000000 5 1 ∧
    handleMemoryMoveRequest threeTierState { page_id := 0, layer_id := PageLayer.NUMA_REMOTE }
        { ret := 0, status := 0 } ≠ Outcome.returned threeTierState ∧
    (handleMemoryMoveRequest threeTierState { page_id := 0, layer_id := PageLayer.NUMA_REMOTE }
        { ret := 0, status := 0 }).state.move_pages_calls.length =
      threeTierState.move_pages_calls.length + 1 :=
  have h := (scanner_request_is_counted_transition (freshPage 0 PageLayer.NUMA_LOCAL)
    10000000000 5 1 { page_id := 0, layer_id := PageLayer.NUMA_REMOTE } (by decide)).2.2.2
    threeTierState { ret := 0, status := 0 } (by decide)
  ⟨by decide, h.1, h.2.1⟩


end MemoryTiering
